import Mathlib

/-!
Verification of the job lifecycle state machine and revocation protocol of
`Source/core/ThreadPool.h` (class `ThreadPool` and its nested template
`ThreadPool::JobType`).

The per-job operations (`Submit`, `Reschedule`, `Revoke`, `Revoked`,
`Dispatch`, `Resubmit`) are each a short-circuit chain of single-attempt
`compare_exchange_strong` calls on the atomic `_state` member, possibly
followed by a write to the `_time` member.  We embed the slot as a record
of those two fields and each operation as a pure function returning the
updated slot together with its observable outputs (whether a dispatch
handle was produced, and any time written to an out-parameter).

`Time` values are embedded as `Option Nat`: `none` models a
default-constructed, invalid `Time` (what `Time::IsValid() == false`
observes), `some t` a valid time with tick count `t`.
-/

set_option autoImplicit false

namespace ThreadPool

/-- The six lifecycle states of `ThreadPool::JobType` (`enum state`,
ThreadPool.h lines 123-130). -/
inductive JState where
  | IDLE
  | SUBMITTED
  | EXECUTING
  | RESUBMIT
  | SCHEDULE
  | REVOKING
deriving DecidableEq

/-- The fields of `ThreadPool::JobType` that the lifecycle claims concern:
the atomic `_state` and the `_time` member.  `time = none` models a
default-constructed (invalid) `Time`. -/
structure JobSlot where
  state : JState
  time : Option Nat
deriving DecidableEq

/-- Single-attempt `std::atomic::compare_exchange_strong(expected, desired)`
on `_state`, run atomically: returns whether the exchange happened, and the
slot afterwards.  (The C++ call also writes the observed value back into
`expected`; since each call site of the source uses a fresh local for
`expected` and never re-reads it after failure, that write-back has no
observable effect and is not modelled.) -/
def cas (s : JobSlot) (expected desired : JState) : Bool × JobSlot :=
  if s.state = expected then (true, { s with state := desired }) else (false, s)

/-- Embeds `JobType::Submit` (ThreadPool.h lines 191-206):
`(cas(EXECUTING,RESUBMIT) == false) && (cas(SCHEDULE,RESUBMIT) == false) &&
(cas(IDLE,SUBMITTED) == true)` yields a handle; `_time` is never touched.
Returns the updated slot and whether a dispatch handle was produced. -/
def Submit (s : JobSlot) : JobSlot × Bool :=
  let r1 := cas s .EXECUTING .RESUBMIT
  if r1.1 then (r1.2, false)
  else
    let r2 := cas r1.2 .SCHEDULE .RESUBMIT
    if r2.1 then (r2.2, false)
    else
      let r3 := cas r2.2 .IDLE .SUBMITTED
      (r3.2, r3.1)

/-- Embeds `JobType::Reschedule(time)` (ThreadPool.h lines 207-227):
`(cas(EXECUTING,SCHEDULE) == false) && (cas(RESUBMIT,SCHEDULE) == false) &&
((cas(SUBMITTED,SCHEDULE) == true) || (cas(IDLE,SCHEDULE) == true))` yields
a handle; on the `else` branch (any earlier cas succeeded, or all failed)
the source executes `_time = time`.  Returns the updated slot and whether a
dispatch handle was produced. -/
def Reschedule (s : JobSlot) (t : Option Nat) : JobSlot × Bool :=
  let r1 := cas s .EXECUTING .SCHEDULE
  if r1.1 then ({ r1.2 with time := t }, false)
  else
    let r2 := cas r1.2 .RESUBMIT .SCHEDULE
    if r2.1 then ({ r2.2 with time := t }, false)
    else
      let r3 := cas r2.2 .SUBMITTED .SCHEDULE
      if r3.1 then (r3.2, true)
      else
        let r4 := cas r3.2 .IDLE .SCHEDULE
        if r4.1 then (r4.2, true)
        else ({ r4.2 with time := t }, false)

/-- Embeds `JobType::RevokeRequired` (ThreadPool.h lines 267-286): result is true
when `_state == REVOKING`, else when one of the four cas attempts
SUBMITTED→REVOKING, EXECUTING→REVOKING, RESUBMIT→REVOKING,
SCHEDULE→REVOKING succeeds. -/
def RevokeRequired (s : JobSlot) : JobSlot × Bool :=
  if s.state = .REVOKING then (s, true)
  else
    let r1 := cas s .SUBMITTED .REVOKING
    if r1.1 then (r1.2, true)
    else
      let r2 := cas r1.2 .EXECUTING .REVOKING
      if r2.1 then (r2.2, true)
      else
        let r3 := cas r2.2 .RESUBMIT .REVOKING
        if r3.1 then (r3.2, true)
        else
          let r4 := cas r3.2 .SCHEDULE .REVOKING
          (r4.2, r4.1)

/-- Embeds `JobType::Revoke` (ThreadPool.h lines 228-234): yields a handle exactly
when `RevokeRequired()` reports true. -/
def Revoke (s : JobSlot) : JobSlot × Bool :=
  RevokeRequired s

/-- Embeds `JobType::Revoked` (ThreadPool.h lines 235-239): cas REVOKING→IDLE
(the source asserts the exchange succeeds). -/
def Revoked (s : JobSlot) : JobSlot :=
  (cas s .REVOKING .IDLE).2

/-- Embeds `JobType::Dispatch` (ThreadPool.h lines 287-292): cas
SUBMITTED→EXECUTING; on success the implementation body
`_implementation.Dispatch()` runs.  Returns the updated slot and whether
the body was invoked. -/
def Dispatch (s : JobSlot) : JobSlot × Bool :=
  let r := cas s .SUBMITTED .EXECUTING
  (r.2, r.1)

/-- Embeds `JobType::Resubmit(time)` (ThreadPool.h lines 250-266): if cas
EXECUTING→IDLE fails, try cas RESUBMIT→SUBMITTED (yield a handle), else cas
SCHEDULE→SUBMITTED (write `time = _time` and yield a handle).  Returns the
updated slot, whether a handle was produced, and the effective value of the
caller's out-parameter `time` (which `ThreadPool::Closure` initialises to an
invalid `Time`, i.e. `none`). -/
def Resubmit (s : JobSlot) : JobSlot × Bool × Option Nat :=
  let r1 := cas s .EXECUTING .IDLE
  if r1.1 then (r1.2, false, none)
  else
    let r2 := cas r1.2 .RESUBMIT .SUBMITTED
    if r2.1 then (r2.2, true, none)
    else
      let r3 := cas r2.2 .SCHEDULE .SUBMITTED
      if r3.1 then (r3.2, true, r3.2.time)
      else (r3.2, false, none)

/-- Where `ThreadPool::Closure` routes a handle yielded by
`JobType::Resubmit`: back onto the pool's queue (`_queue.Post`) or to the
external scheduler (`_scheduler->Schedule`); `nothing` when `Resubmit`
yielded no handle. -/
inductive Route where
  | nothing
  | toQueue
  | toScheduler (t : Nat)
deriving DecidableEq

/-- Embeds `ThreadPool::Closure` (ThreadPool.h lines 580-594): under the queue
lock, call `job.Resubmit(scheduleTime)` with `scheduleTime` initialised
invalid; if a handle comes back, post it to the queue when
`scheduleTime.IsValid() == false || _scheduler == nullptr ||
scheduleTime < Time::Now()`, else hand it to the scheduler.  `hasScheduler`
models `_scheduler != nullptr` and `now` the value of `Time::Now()`. -/
def Closure (s : JobSlot) (hasScheduler : Bool) (now : Nat) : JobSlot × Route :=
  let r := Resubmit s
  if r.2.1 then
    match r.2.2 with
    | none => (r.1, .toQueue)
    | some tv =>
        if hasScheduler = false ∨ tv < now then (r.1, .toQueue)
        else (r.1, .toScheduler tv)
  else (r.1, .nothing)

/-! Operation-level transition system for the at-most-one-handle invariant.

A configuration tracks, for one `JobType` slot, the slot's fields together
with the number of dispatch-handle copies sitting in the pool's queue
(`q`), held by a worker between `Extract` and the end of `Closure` (`f`),
and held by the external scheduler (`sched`).  The operations are those of
the claims: the producer calls `Submit`, `Reschedule(t)` and the revocation
protocol, and the worker callbacks `Dispatch` and `Closure`/`Resubmit`.

Handle placement follows the source and its documented usage: a handle
yielded by `Submit` is enqueued (`ThreadPool::Submit`); a handle yielded by
`Reschedule` is routed by the caller to the external scheduler; a handle
yielded inside `Closure` goes to the queue or the scheduler as `Closure`
decides.  The `revoke` operation is `JobType::Revoke` composed with
`ThreadPool::Revoke`'s `_queue.Remove` (the handle used for the removal is
held by the revoker, never dispatched, and is not counted); `revoked` is
the protocol's final step, enabled once the wait for the in-flight copy
has completed (`f = 0`). -/

/-- One slot plus the number of dispatch-handle copies in the queue,
in flight with a worker, and held by the external scheduler. -/
structure Config where
  slot : JobSlot
  q : Nat
  f : Nat
  sched : Nat
deriving DecidableEq

/-- The quiescent starting configuration: freshly constructed slot
(`_state = IDLE`, `_time` default-constructed), no handle anywhere. -/
def initConfig : Config :=
  { slot := { state := .IDLE, time := none }, q := 0, f := 0, sched := 0 }

/-- The operations of the lifecycle claims, one constructor per operation
the claims enumerate. -/
inductive Op where
  | submit
  | reschedule (t : Nat)
  | revoke
  | dispatch
  | closure (hasScheduler : Bool) (now : Nat)
  | revoked
deriving DecidableEq

/-- One atomic operation on a configuration; `none` when the operation is
not enabled (a worker can only extract when the queue holds a copy, can
only run `Closure` on the copy it holds, and `Revoked` is only called once
the revocation wait has completed). -/
def step (c : Config) : Op → Option Config
  | .submit =>
      let r := Submit c.slot
      some { c with slot := r.1, q := c.q + (if r.2 then 1 else 0) }
  | .reschedule t =>
      let r := Reschedule c.slot (some t)
      some { c with slot := r.1, sched := c.sched + (if r.2 then 1 else 0) }
  | .revoke =>
      let r := Revoke c.slot
      if r.2 then some { c with slot := r.1, q := 0 }
      else some { c with slot := r.1 }
  | .dispatch =>
      if c.q = 0 then none
      else
        let r := Dispatch c.slot
        some { c with slot := r.1, q := c.q - 1, f := c.f + 1 }
  | .closure hasScheduler now =>
      if c.f = 0 then none
      else
        let r := Closure c.slot hasScheduler now
        some { slot := r.1
               q := c.q + (if r.2 = .toQueue then 1 else 0)
               f := c.f - 1
               sched := c.sched + (match r.2 with
                                   | .toScheduler _ => 1
                                   | _ => 0) }
  | .revoked =>
      if c.slot.state = .REVOKING ∧ c.f = 0 then
        some { c with slot := Revoked c.slot }
      else none

/-- Configurations reachable from `initConfig` by the claims' operations. -/
inductive Reach : Config → Prop where
  | init : Reach initConfig
  | step {c c' : Config} {op : Op} : Reach c → step c op = some c' → Reach c'

/-- The inductive invariant: at most one dispatch-handle copy is in the
queue plus in flight, and the states pin where that copy can be. -/
def Inv (c : Config) : Prop :=
  c.q + c.f ≤ 1 ∧
  (c.slot.state = .IDLE → c.q = 0 ∧ c.f = 0) ∧
  (c.slot.state = .EXECUTING → c.q = 0) ∧
  (c.slot.state = .REVOKING → c.q = 0)

/-- Outcomes of `ThreadPool::Revoke` and `Minion::Completed`
(`ERROR_NONE`, `ERROR_TIMEDOUT`, `ERROR_UNKNOWN_KEY`): `Completed` returns
`ERROR_UNKNOWN_KEY` when the worker's `_currentRequest` is not the revoked
job, else the outcome of waiting on the worker's signal event. -/
inductive Outcome where
  | OK
  | TIMEDOUT
  | UNKNOWN_KEY
deriving DecidableEq

/-- View of one `Executor` in `ThreadPool::_units` as `ThreadPool::Revoke`
observes it: its OS thread `id` and the outcome its minion's
`Completed(job, waitTime)` call would report for the revoked job. -/
structure ExecutorView where
  id : Nat
  completed : Outcome
deriving DecidableEq

/-- Embeds the worker loop of `ThreadPool::Revoke` (ThreadPool.h lines
540-555): `while (result == ERROR_UNKNOWN_KEY && index != end)`, where each
iteration returns `ERROR_NONE` when the executor's thread id equals the
caller's id, and otherwise adopts the `Completed` outcome when it is
`ERROR_NONE` or `ERROR_TIMEDOUT`. -/
def revokeScan (callerId : Nat) (result : Outcome) : List ExecutorView → Outcome
  | [] => result
  | w :: ws =>
      if result = .UNKNOWN_KEY then
        let result' :=
          if w.id = callerId then Outcome.OK
          else
            let outcome := w.completed
            if outcome = .OK ∨ outcome = .TIMEDOUT then outcome else result
        revokeScan callerId result' ws
      else result

/-- Embeds `ThreadPool::Revoke` (ThreadPool.h lines 529-559):
`removedFromQueue` models the result of the initial `_queue.Remove(job)`;
on failure the worker list is scanned starting from
`result = ERROR_UNKNOWN_KEY`. -/
def poolRevoke (removedFromQueue : Bool) (callerId : Nat)
    (units : List ExecutorView) : Outcome :=
  if removedFromQueue then .OK
  else revokeScan callerId .UNKNOWN_KEY units

/-- Modelled from the spec: the wording of the revoke outcome rule, written
independently of the source's `while`-loop-with-result-accumulator shape:
return OK if the handle was removed from the queue; otherwise the first
worker whose thread id equals the caller's gives OK, a worker whose
`Completed` reports OK or TIMEDOUT gives that outcome, workers reporting
UNKNOWN_KEY are skipped, and if the scan reaches the end the result is
UNKNOWN_KEY. -/
def revokeSpecScan (callerId : Nat) : List ExecutorView → Outcome
  | [] => .UNKNOWN_KEY
  | w :: ws =>
      if w.id = callerId then .OK
      else
        match w.completed with
        | .OK => .OK
        | .TIMEDOUT => .TIMEDOUT
        | .UNKNOWN_KEY => revokeSpecScan callerId ws

/-- Modelled from the spec: the full outcome rule of the revoke operation
as the spec words it (queue removal first, then the worker scan). -/
def revokeSpec (removedFromQueue : Bool) (callerId : Nat)
    (units : List ExecutorView) : Outcome :=
  if removedFromQueue then .OK
  else revokeSpecScan callerId units

/-! Characterisations of the embedded operations, proved by unfolding the
cas chains state by state.  These are shared working lemmas. -/

/-- Unfolded behaviour of `Submit`, state by state. -/
theorem Submit_eq (s : JobSlot) :
    Submit s =
      match s.state with
      | .IDLE => ({ s with state := .SUBMITTED }, true)
      | .EXECUTING => ({ s with state := .RESUBMIT }, false)
      | .SCHEDULE => ({ s with state := .RESUBMIT }, false)
      | _ => (s, false) := by
  obtain ⟨st, t⟩ := s
  cases st <;> rfl

/-- Unfolded behaviour of `Reschedule`, state by state. -/
theorem Reschedule_eq (s : JobSlot) (t : Option Nat) :
    Reschedule s t =
      match s.state with
      | .EXECUTING => ({ s with state := .SCHEDULE, time := t }, false)
      | .RESUBMIT => ({ s with state := .SCHEDULE, time := t }, false)
      | .SUBMITTED => ({ s with state := .SCHEDULE }, true)
      | .IDLE => ({ s with state := .SCHEDULE }, true)
      | _ => ({ s with time := t }, false) := by
  obtain ⟨st, tm⟩ := s
  cases st <;> rfl

/-- Unfolded behaviour of `Revoke`: a handle is produced exactly off
non-IDLE states, and the state becomes (or stays) REVOKING. -/
theorem Revoke_eq (s : JobSlot) :
    Revoke s =
      if s.state = .IDLE then (s, false)
      else ({ s with state := .REVOKING }, true) := by
  obtain ⟨st, t⟩ := s
  cases st <;> rfl

/-- Unfolded behaviour of `Revoked`. -/
theorem Revoked_eq (s : JobSlot) :
    Revoked s = if s.state = .REVOKING then { s with state := .IDLE } else s := by
  obtain ⟨st, t⟩ := s
  cases st <;> rfl

/-- Unfolded behaviour of `Dispatch`. -/
theorem Dispatch_eq (s : JobSlot) :
    Dispatch s =
      if s.state = .SUBMITTED then ({ s with state := .EXECUTING }, true)
      else (s, false) := by
  obtain ⟨st, t⟩ := s
  cases st <;> rfl

/-- Unfolded behaviour of `Resubmit`, state by state. -/
theorem Resubmit_eq (s : JobSlot) :
    Resubmit s =
      match s.state with
      | .EXECUTING => ({ s with state := .IDLE }, false, none)
      | .RESUBMIT => ({ s with state := .SUBMITTED }, true, none)
      | .SCHEDULE => ({ s with state := .SUBMITTED }, true, s.time)
      | _ => (s, false, none) := by
  obtain ⟨st, t⟩ := s
  cases st <;> rfl

/-- Unfolded behaviour of `Closure`, state by state. -/
theorem Closure_eq (s : JobSlot) (hs : Bool) (now : Nat) :
    Closure s hs now =
      match s.state with
      | .EXECUTING => ({ s with state := .IDLE }, .nothing)
      | .RESUBMIT => ({ s with state := .SUBMITTED }, .toQueue)
      | .SCHEDULE =>
          match s.time with
          | none => ({ s with state := .SUBMITTED }, .toQueue)
          | some tv =>
              if hs = false ∨ tv < now then ({ s with state := .SUBMITTED }, .toQueue)
              else ({ s with state := .SUBMITTED }, .toScheduler tv)
      | _ => (s, .nothing) := by
  obtain ⟨st, t⟩ := s
  cases st <;> cases t <;> rfl

/-- Proof that the initial configuration satisfies the invariant. -/
theorem inv_init : Inv initConfig := by
  simp [Inv, initConfig]

/-- Preservation: every enabled operation maps an invariant-satisfying
configuration to an invariant-satisfying one. -/
theorem inv_step {c c' : Config} {op : Op} (hc : Inv c) (h : step c op = some c') :
    Inv c' := by
  obtain ⟨⟨st, t⟩, q, f, sched⟩ := c
  obtain ⟨h1, h2, h3, h4⟩ := hc
  simp only [Inv] at h1 h2 h3 h4 ⊢
  cases op with
  | submit =>
      cases st <;>
        (simp only [step, Submit_eq, Option.some.injEq] at h; subst h; simp_all)
  | reschedule t' =>
      cases st <;>
        (simp only [step, Reschedule_eq, Option.some.injEq] at h; subst h; simp_all)
  | revoke =>
      cases st <;>
        (simp only [step, Revoke_eq, reduceIte, reduceCtorEq] at h <;>
         simp only [Option.some.injEq] at h <;> subst h <;> simp_all) <;>
        omega
  | dispatch =>
      cases q with
      | zero => simp [step] at h
      | succ n =>
          cases st <;>
            (simp only [step, Dispatch_eq, Nat.succ_ne_zero, if_false,
               reduceIte, reduceCtorEq, Option.some.injEq] at h <;> subst h <;> simp_all) <;>
            omega
  | closure hs now =>
      cases f with
      | zero => simp [step] at h
      | succ n =>
          cases st <;> cases t <;>
            (simp only [step, Closure_eq, Nat.succ_ne_zero, if_false, reduceIte,
               reduceCtorEq, Option.some.injEq] at h <;>
             (try split at h) <;>
             (try simp only [Option.some.injEq] at h) <;> subst h <;> simp_all) <;>
            omega
  | revoked =>
      cases st <;>
        simp only [step, Revoked_eq, reduceIte, reduceCtorEq, false_and, true_and,
          if_false] at h <;>
      · cases f with
        | zero =>
            simp only [reduceIte, Option.some.injEq] at h
            subst h; simp_all
        | succ n => simp at h

/-- All reachable configurations satisfy the invariant. -/
theorem reach_inv {c : Config} (h : Reach c) : Inv c := by
  induction h with
  | init => exact inv_init
  | step hr hs ih => exact inv_step ih hs

/-- Helper for the revoke scan: once the accumulated `result` is no longer
`ERROR_UNKNOWN_KEY`, the source's while loop stops and returns it. -/
theorem revokeScan_stop (callerId : Nat) (r : Outcome) (hr : r ≠ .UNKNOWN_KEY)
    (units : List ExecutorView) : revokeScan callerId r units = r := by
  cases units with
  | nil => rfl
  | cons w ws => simp [revokeScan, hr]

/-! Claim theorems. -/

/-- Claim C2 counterexample: `Submit` on a SCHEDULE slot whose stored time
is 5 transitions to RESUBMIT with no handle, but does NOT drop the stored
scheduled time: `_time` still holds 5 afterwards (`Submit` never writes
`_time`). -/
theorem submit_keeps_scheduled_time :
    Submit { state := .SCHEDULE, time := some 5 } =
      ({ state := .RESUBMIT, time := some 5 }, false) ∧
    (Submit { state := .SCHEDULE, time := some 5 }).1.time ≠ none := by
  decide

/-- Claim C2 (amended): `Submit` returns a handle iff the state was IDLE
(IDLE→SUBMITTED); EXECUTING→RESUBMIT and SCHEDULE→RESUBMIT with no handle;
SUBMITTED, RESUBMIT and REVOKING are unchanged with no handle; and in every
case — including SCHEDULE→RESUBMIT — the stored scheduled time is left
unchanged rather than dropped (it is merely not used by the immediate
re-run the transition requests). -/
theorem submit_transitions (s : JobSlot) :
    Submit s =
      (match s.state with
       | .IDLE => ({ s with state := .SUBMITTED }, true)
       | .EXECUTING => ({ s with state := .RESUBMIT }, false)
       | .SCHEDULE => ({ s with state := .RESUBMIT }, false)
       | _ => (s, false)) ∧
    (Submit s).1.time = s.time := by
  refine ⟨Submit_eq s, ?_⟩
  rw [Submit_eq]
  obtain ⟨st, t⟩ := s
  cases st <;> rfl

/-- Claim C3 counterexample: `Reschedule(7)` on an IDLE slot yields a
handle and moves to SCHEDULE, but does not store 7: the slot sits in
SCHEDULE with `_time` still at its previous (invalid) value, so SCHEDULE
does not imply the stored time is the one of the reschedule that produced
it. -/
theorem reschedule_from_idle_does_not_store_time :
    Reschedule { state := .IDLE, time := none } (some 7) =
      ({ state := .SCHEDULE, time := none }, true) ∧
    (Reschedule { state := .IDLE, time := none } (some 7)).1.time ≠ some 7 := by
  decide

/-- Claim C3 (amended): `Reschedule(t)` from SUBMITTED or IDLE moves the
state to SCHEDULE and returns a handle, but leaves `_time` unchanged: the
source writes `_time` only on the no-handle branches, so t is not stored
on these paths (the handle's caller is the one expected to carry t to the
external scheduler). -/
theorem reschedule_handle_paths_do_not_store_time (s : JobSlot) (t : Option Nat)
    (h : s.state = .SUBMITTED ∨ s.state = .IDLE) :
    Reschedule s t = ({ s with state := .SCHEDULE }, true) := by
  rw [Reschedule_eq]
  rcases h with h | h <;> rw [h]

/-- Claim C3 witness: the amended statement at a concrete IDLE slot whose
stale stored time 3 survives the reschedule to 7. -/
theorem reschedule_handle_paths_do_not_store_time_witness :
    Reschedule { state := .IDLE, time := some 3 } (some 7) =
      ({ state := .SCHEDULE, time := some 3 }, true) :=
  reschedule_handle_paths_do_not_store_time { state := .IDLE, time := some 3 }
    (some 7) (Or.inr rfl)

/-- Claim C4 counterexample: `Reschedule(9)` on a SCHEDULE slot holding
time 3 yields no handle and keeps the state, but overwrites the stored
time with 9 — the existing earlier value does not survive, so the call is
not a no-op. -/
theorem reschedule_in_schedule_overwrites_time :
    Reschedule { state := .SCHEDULE, time := some 3 } (some 9) =
      ({ state := .SCHEDULE, time := some 9 }, false) ∧
    (Reschedule { state := .SCHEDULE, time := some 3 } (some 9)).1.time ≠ some 3 := by
  decide

/-- Claim C4 (amended): `Reschedule(t)` while REVOKING or already SCHEDULE
returns no handle and leaves the state unchanged, but is not free of
effect: the source's else branch stores t into `_time`, overwriting any
existing value (the later reschedule's time wins). -/
theorem reschedule_noop_paths_overwrite_time (s : JobSlot) (t : Option Nat)
    (h : s.state = .REVOKING ∨ s.state = .SCHEDULE) :
    Reschedule s t = ({ s with time := t }, false) := by
  rw [Reschedule_eq]
  rcases h with h | h <;> rw [h]

/-- Claim C4 witness: the amended statement at a concrete REVOKING slot. -/
theorem reschedule_noop_paths_overwrite_time_witness :
    Reschedule { state := .REVOKING, time := none } (some 4) =
      ({ state := .REVOKING, time := some 4 }, false) :=
  reschedule_noop_paths_overwrite_time { state := .REVOKING, time := none }
    (some 4) (Or.inl rfl)

/-- Claim C5: the closure callback `Resubmit` yields no handle from
EXECUTING (moving to IDLE); from RESUBMIT it moves to SUBMITTED and yields
a handle with the out-time left unset; from SCHEDULE it moves to SUBMITTED,
yields a handle, and writes the stored `_time` into the out-time; from any
other state it yields no handle and changes nothing. -/
theorem resubmit_transitions (s : JobSlot) :
    Resubmit s =
      match s.state with
      | .EXECUTING => ({ s with state := .IDLE }, false, none)
      | .RESUBMIT => ({ s with state := .SUBMITTED }, true, none)
      | .SCHEDULE => ({ s with state := .SUBMITTED }, true, s.time)
      | _ => (s, false, none) :=
  Resubmit_eq s

/-- Claim C6: the worker callback `Dispatch` invokes the implementation's
body iff the state was SUBMITTED, first moving SUBMITTED→EXECUTING; every
other starting state skips execution and is left unchanged. -/
theorem dispatch_transitions (s : JobSlot) :
    Dispatch s =
      if s.state = .SUBMITTED then ({ s with state := .EXECUTING }, true)
      else (s, false) :=
  Dispatch_eq s

/-- Claim C7: `Revoke` returns a handle iff the state is not IDLE: already
REVOKING keeps the state and yields a handle, SUBMITTED / EXECUTING /
RESUBMIT / SCHEDULE move to REVOKING with a handle, and IDLE yields nothing
and changes nothing. -/
theorem revoke_transitions (s : JobSlot) :
    (Revoke s =
      if s.state = .IDLE then (s, false)
      else ({ s with state := .REVOKING }, true)) ∧
    ((Revoke s).2 = true ↔ s.state ≠ .IDLE) := by
  refine ⟨Revoke_eq s, ?_⟩
  rw [Revoke_eq]
  by_cases h : s.state = .IDLE <;> simp [h]

/-- Claim C1 (amended): along every sequence of the claims' slot operations
from the initial IDLE configuration, at most one dispatch handle is
outstanding in the queue plus in flight with a worker.  The claim's
stronger bound, which also counts scheduler-held handles, fails — see the
counterexample: `Reschedule` from SUBMITTED yields a scheduler-bound
handle while the submitted handle is still enqueued. -/
theorem queue_plus_inflight_at_most_one {c : Config} (h : Reach c) :
    c.q + c.f ≤ 1 :=
  (reach_inv h).1

/-- Claim C1 witness: the amended bound at the reachable configuration one
Submit away from the initial state, where the bound is attained. -/
theorem queue_plus_inflight_at_most_one_witness :
    ({ slot := { state := .SUBMITTED, time := none },
       q := 1, f := 0, sched := 0 } : Config).q +
      ({ slot := { state := .SUBMITTED, time := none },
         q := 1, f := 0, sched := 0 } : Config).f ≤ 1 :=
  queue_plus_inflight_at_most_one
    (Reach.step Reach.init
      (show step initConfig .submit =
          some { slot := { state := .SUBMITTED, time := none },
                 q := 1, f := 0, sched := 0 } by decide))

/-- Claim C1 counterexample: Submit followed by Reschedule(5) is a
reachable two-operation sequence after which two dispatch handles are
outstanding at once — the submitted one still in the queue and the
rescheduled one held by the scheduler — so the queue ∪ in-flight ∪
scheduler-held count reaches 2, refuting the claim as stated. -/
theorem outstanding_handles_can_reach_two :
    (step initConfig .submit).bind (fun c => step c (.reschedule 5)) =
      some { slot := { state := .SCHEDULE, time := none },
             q := 1, f := 0, sched := 1 } ∧
    Reach { slot := { state := .SCHEDULE, time := none },
            q := 1, f := 0, sched := 1 } ∧
    ({ slot := { state := .SCHEDULE, time := none },
       q := 1, f := 0, sched := 1 } : Config).q +
      ({ slot := { state := .SCHEDULE, time := none },
         q := 1, f := 0, sched := 1 } : Config).f +
      ({ slot := { state := .SCHEDULE, time := none },
         q := 1, f := 0, sched := 1 } : Config).sched = 2 := by
  have h1 : step initConfig .submit =
      some { slot := { state := .SUBMITTED, time := none },
             q := 1, f := 0, sched := 0 } := by decide
  have h2 : step { slot := { state := .SUBMITTED, time := none },
                   q := 1, f := 0, sched := 0 } (.reschedule 5) =
      some { slot := { state := .SCHEDULE, time := none },
             q := 1, f := 0, sched := 1 } := by decide
  exact ⟨by decide, Reach.step (Reach.step Reach.init h1) h2, by decide⟩

/-- Claim C9: when the job's `Resubmit` yields a valid handle, `Closure`
posts it back on the queue exactly when the reported scheduled time is not
valid, or the pool has no external scheduler, or the time is earlier than
now; in every other case it hands the handle to the scheduler with that
time; and exactly one of the two routes is taken. -/
theorem closure_routing (s : JobSlot) (hasScheduler : Bool) (now : Nat)
    (h : (Resubmit s).2.1 = true) :
    ((Closure s hasScheduler now).2 = .toQueue ↔
      ((Resubmit s).2.2 = none ∨ hasScheduler = false ∨
        (∃ tv, (Resubmit s).2.2 = some tv ∧ tv < now))) ∧
    (∀ tv : Nat, (Closure s hasScheduler now).2 = .toScheduler tv ↔
      ((Resubmit s).2.2 = some tv ∧ hasScheduler = true ∧ ¬ tv < now)) ∧
    (Closure s hasScheduler now).2 ≠ .nothing := by
  rcases hr : (Resubmit s).2.2 with _ | tv <;>
    cases hasScheduler <;>
      simp only [Closure, h, hr, if_true, reduceIte] <;>
        simp_all [imp_false]
  by_cases hlt : tv < now <;> simp [hlt] <;> omega

/-- Claim C9 witness: the routing characterisation instantiated at a
RESUBMIT slot, where the valid-handle hypothesis is satisfied. -/
theorem closure_routing_witness :
    (Closure { state := .RESUBMIT, time := none } true 0).2 ≠ Route.nothing :=
  (closure_routing { state := .RESUBMIT, time := none } true 0 (by decide)).2.2

/-- Claim C8: `ThreadPool::Revoke` computes exactly the outcome rule the
spec states — OK on queue removal, otherwise the first worker whose thread
id equals the caller's gives OK, else the first `Completed` outcome that is
OK or TIMEDOUT, workers reporting UNKNOWN_KEY are skipped, and an exhausted
scan leaves UNKNOWN_KEY. -/
theorem pool_revoke_refines_spec (removedFromQueue : Bool) (callerId : Nat)
    (units : List ExecutorView) :
    poolRevoke removedFromQueue callerId units =
      revokeSpec removedFromQueue callerId units := by
  cases removedFromQueue with
  | true => rfl
  | false =>
      show revokeScan callerId .UNKNOWN_KEY units = revokeSpecScan callerId units
      induction units with
      | nil => rfl
      | cons w ws ih =>
          by_cases hid : w.id = callerId
          · simp [revokeScan, revokeSpecScan, hid, revokeScan_stop]
          · cases hw : w.completed <;>
              simp [revokeScan, revokeSpecScan, hid, hw, revokeScan_stop, ih]

/-- Claim C10: a revoke issued from one of the pool's own worker threads,
when the handle was not removed from the queue and every worker positioned
before the caller's reports UNKNOWN_KEY, returns OK as soon as the scan
reaches the caller's own worker — whatever that worker's own `Completed`
would report (`mine.completed` is arbitrary and never consulted), and
whatever the workers after it (for instance the one actually executing the
revoked job) would report. -/
theorem self_revoke_short_circuit (callerId : Nat) (pre post : List ExecutorView)
    (mine : ExecutorView) (hm : mine.id = callerId)
    (hpre : ∀ w ∈ pre, w.id ≠ callerId ∧ w.completed = .UNKNOWN_KEY) :
    poolRevoke false callerId (pre ++ mine :: post) = .OK := by
  show revokeScan callerId .UNKNOWN_KEY (pre ++ mine :: post) = .OK
  induction pre with
  | nil => simp [revokeScan, hm, revokeScan_stop]
  | cons w ws ih =>
      obtain ⟨hw1, hw2⟩ := hpre w (List.mem_cons_self w ws)
      simpa [revokeScan, hw1, hw2] using
        ih (fun x hx => hpre x (List.mem_cons_of_mem w hx))

/-- Claim C10 witness: caller is worker 2; worker 1 (earlier) reports
UNKNOWN_KEY, worker 3 (later) would report OK and worker 2's own
`Completed` would time out, yet the revoke returns OK at worker 2. -/
theorem self_revoke_short_circuit_witness :
    poolRevoke false 2
      ([{ id := 1, completed := .UNKNOWN_KEY }] ++
        { id := 2, completed := .TIMEDOUT } :: [{ id := 3, completed := .OK }]) =
      .OK :=
  self_revoke_short_circuit 2 [{ id := 1, completed := .UNKNOWN_KEY }]
    [{ id := 3, completed := .OK }] { id := 2, completed := .TIMEDOUT } rfl
    (by decide)

end ThreadPool
